import Mathlib

/-!
Shallow embedding of the midi_to_console core: the MIDI note-state tracker
(src/midi.rs), the pitch/button mapper and report encoder (src/nscontroller.rs),
the gadget-loop frame merge (src/threads/gadget.rs) and the device-file write
wrapper (src/device_file.rs).  Bytes are modelled as Nat; the only place the
u8 width matters computationally is the status-nibble shift, made explicit
with % 256.  Fallible Rust functions returning Result are modelled as Option
(or Except where the error value matters); the mpsc channel sends of the
tracker are modelled as an explicit trace of emitted snapshots.
-/

namespace MidiToConsole

/-- Seven recognised MIDI voice-message kinds (enum MidiMessageTypes, src/midi.rs). -/
inductive MidiMessageTypes where
  | NoteOff
  | NoteOn
  | PolyphonicPressure
  | ControlChange
  | ProgramChange
  | ChannelPressure
  | PitchBend
  deriving DecidableEq, Repr

/-- Discriminant values of the Rust enum (NoteOff = 0x8 .. PitchBend = 0xE). -/
def MidiMessageTypes.toU8 : MidiMessageTypes → Nat
  | .NoteOff => 0x8
  | .NoteOn => 0x9
  | .PolyphonicPressure => 0xA
  | .ControlChange => 0xB
  | .ProgramChange => 0xC
  | .ChannelPressure => 0xD
  | .PitchBend => 0xE

/-- Embedding of impl TryFrom u8 for MidiMessageTypes: the source compares the
raw value against each discriminant in turn and errs on anything else. -/
def MidiMessageTypes.tryFrom (value : Nat) : Option MidiMessageTypes :=
  if value = MidiMessageTypes.NoteOff.toU8 then some .NoteOff
  else if value = MidiMessageTypes.NoteOn.toU8 then some .NoteOn
  else if value = MidiMessageTypes.PolyphonicPressure.toU8 then some .PolyphonicPressure
  else if value = MidiMessageTypes.ControlChange.toU8 then some .ControlChange
  else if value = MidiMessageTypes.ProgramChange.toU8 then some .ProgramChange
  else if value = MidiMessageTypes.ChannelPressure.toU8 then some .ChannelPressure
  else if value = MidiMessageTypes.PitchBend.toU8 then some .PitchBend
  else none

/-- Parsed MIDI packet (struct MidiMessageData, src/midi.rs).  The struct has
exactly these three fields; the channel nibble of byte 0 is not stored. -/
structure MidiMessageData where
  status_byte : MidiMessageTypes
  data_byte1 : Nat
  data_byte2 : Nat
  deriving DecidableEq, Repr

/-- Embedding of MidiMessageData::new: derive the kind from the high nibble of
byte 0 (a u8, hence the % 256) and store the two data bytes verbatim. -/
def MidiMessageData.new (byte0 byte1 byte2 : Nat) : Option MidiMessageData :=
  match MidiMessageTypes.tryFrom ((byte0 % 256) >>> 4) with
  | none => none
  | some midi_type => some { status_byte := midi_type, data_byte1 := byte1, data_byte2 := byte2 }

/-- Embedding of should_add_midi_message: status is NoteOn and velocity is not 0. -/
def MidiMessageData.should_add_midi_message (m : MidiMessageData) : Bool :=
  m.status_byte == MidiMessageTypes.NoteOn && m.data_byte2 != 0x00

/-- Embedding of should_remove_midi_message: NoteOn with velocity 0, or NoteOff. -/
def MidiMessageData.should_remove_midi_message (m : MidiMessageData) : Bool :=
  (m.status_byte == MidiMessageTypes.NoteOn && m.data_byte2 == 0x00)
    || m.status_byte == MidiMessageTypes.NoteOff

/-- Embedding of process_callback (src/midi.rs).  The two tx.send calls are
modelled as the returned trace of emitted snapshots; Err becomes none.  The
source rejects messages shorter than 3 bytes and uses the first three bytes. -/
def process_callback (message : List Nat) (current_messages : List MidiMessageData) :
    Option (List MidiMessageData × List (List MidiMessageData)) :=
  match message with
  | byte0 :: byte1 :: byte2 :: _ =>
    match MidiMessageData.new byte0 byte1 byte2 with
    | none => none
    | some midi_data =>
      let afterAdd :=
        if midi_data.should_add_midi_message
            && ! current_messages.any (fun x => x.data_byte1 == midi_data.data_byte1)
        then current_messages ++ [midi_data]
        else current_messages
      let afterRemove :=
        if midi_data.should_remove_midi_message
        then afterAdd.filter (fun x => x.data_byte1 != midi_data.data_byte1)
        else afterAdd
      some (afterRemove, [afterRemove, afterRemove])
  | _ => none

/-- Projection of process_callback to the updated note state. -/
def apply_message (message : List Nat) (current_messages : List MidiMessageData) :
    Option (List MidiMessageData) :=
  (process_callback message current_messages).map (fun r => r.1)

/-- Embedding of the MIDI callback closure in process_signals: on Ok the mutex
content is replaced by the new state, on Err the state is untouched and
nothing was emitted. -/
def callback_step (message : List Nat) (persistent : List MidiMessageData) :
    List MidiMessageData × List (List MidiMessageData) :=
  match process_callback message persistent with
  | some value => value
  | none => (persistent, [])

/-- Eighteen controller buttons (enum Button, src/nscontroller.rs). -/
inductive Button where
  | Y
  | X
  | B
  | A
  | R
  | ZR
  | Minus
  | Plus
  | RightStick
  | LeftStick
  | Home
  | Capture
  | DpadDown
  | DpadUp
  | DpadRight
  | DpadLeft
  | L
  | ZL
  deriving DecidableEq, Repr

/-- Twelve pitch classes (enum Pitch, src/nscontroller.rs). -/
inductive Pitch where
  | C
  | CSharp
  | D
  | DSharp
  | E
  | F
  | FSharp
  | G
  | GSharp
  | A
  | ASharp
  | B
  deriving DecidableEq, Repr

/-- Embedding of the INDEX_TO_PITCH map: residues 0..11 to pitch classes. -/
def INDEX_TO_PITCH (index : Nat) : Option Pitch :=
  match index with
  | 0 => some .C
  | 1 => some .CSharp
  | 2 => some .D
  | 3 => some .DSharp
  | 4 => some .E
  | 5 => some .F
  | 6 => some .FSharp
  | 7 => some .G
  | 8 => some .GSharp
  | 9 => some .A
  | 10 => some .ASharp
  | 11 => some .B
  | _ => none

/-- Membership in the KEYS_IN_BYTE1 set: buttons encoded in output byte index 0. -/
def KEYS_IN_BYTE1 (key : Button) : Bool :=
  match key with
  | .Y | .X | .B | .A | .R | .ZR => true
  | _ => false

/-- Membership in the KEYS_IN_BYTE2 set: buttons encoded in output byte index 1. -/
def KEYS_IN_BYTE2 (key : Button) : Bool :=
  match key with
  | .Minus | .Plus | .RightStick | .LeftStick | .Home | .Capture => true
  | _ => false

/-- Membership in the KEYS_IN_BYTE3 set: buttons encoded in output byte index 2. -/
def KEYS_IN_BYTE3 (key : Button) : Bool :=
  match key with
  | .DpadUp | .DpadDown | .DpadLeft | .DpadRight | .L | .ZL => true
  | _ => false

/-- Embedding of the KEY_OFFSET map: bit offset of each button inside its byte. -/
def KEY_OFFSET (key : Button) : Option Nat :=
  match key with
  | .Y => some 0
  | .X => some 1
  | .B => some 2
  | .A => some 3
  | .R => some 6
  | .ZR => some 7
  | .Minus => some 0
  | .Plus => some 1
  | .RightStick => some 2
  | .LeftStick => some 3
  | .Home => some 4
  | .Capture => some 5
  | .DpadDown => some 0
  | .DpadUp => some 1
  | .DpadRight => some 2
  | .DpadLeft => some 3
  | .L => some 6
  | .ZL => some 7

/-- Embedding of the PITCH_TO_BUTTON map. -/
def PITCH_TO_BUTTON (pitch : Pitch) : Option Button :=
  match pitch with
  | .C => some .Y
  | .CSharp => some .X
  | .D => some .B
  | .DSharp => some .A
  | .E => some .R
  | .F => some .ZR
  | .FSharp => some .L
  | .G => some .ZL
  | .GSharp => some .DpadDown
  | .A => some .DpadUp
  | .ASharp => some .DpadLeft
  | .B => some .DpadRight

/-- Embedding of Pitch::from_midi: look the note number up modulo 12. -/
def Pitch.from_midi (midi_data : MidiMessageData) : Option Pitch :=
  INDEX_TO_PITCH (midi_data.data_byte1 % 12)

/-- The three button bytes of an input report (field report: [u8; 3] of struct
InputReport); r0, r1, r2 are report[0], report[1], report[2]. -/
structure InputReport where
  r0 : Nat
  r1 : Nat
  r2 : Nat
  deriving DecidableEq, Repr

/-- Indexed read of the report array. -/
def InputReport.getIdx (r : InputReport) (index : Nat) : Nat :=
  match index with
  | 0 => r.r0
  | 1 => r.r1
  | 2 => r.r2
  | _ => 0

/-- Indexed write of the report array. -/
def InputReport.setIdx (r : InputReport) (index value : Nat) : InputReport :=
  match index with
  | 0 => { r with r0 := value }
  | 1 => { r with r1 := value }
  | 2 => { r with r2 := value }
  | _ => r

/-- Embedding of InputReport::new: the default byte triple 0x00, 0x80, 0x00. -/
def InputReport.new : InputReport :=
  { r0 := 0x00, r1 := 0x80, r2 := 0x00 }

/-- Embedding of find_packet_position: three sequential membership tests over
the byte groups, with 255 as the not-found sentinel. -/
def InputReport.find_packet_position (key : Button) : Option Nat :=
  let position : Nat := 255
  let position := if KEYS_IN_BYTE1 key then 0 else position
  let position := if KEYS_IN_BYTE2 key then 1 else position
  let position := if KEYS_IN_BYTE3 key then 2 else position
  if position = 255 then none else some position

/-- Embedding of press_one: locate the byte and bit of the key and OR the bit in. -/
def InputReport.press_one (r : InputReport) (key : Button) : Option InputReport :=
  match InputReport.find_packet_position key with
  | none => none
  | some position =>
    match KEY_OFFSET key with
    | some offset => some (r.setIdx position (r.getIdx position ||| (1 <<< offset)))
    | none => none

/-- Embedding of InputReport::from with its final unwrap made explicit: none is
the unwrap panic; the two lookup-failure early returns yield the fresh report
unchanged, as in the source. -/
def InputReport.fromMidiOpt (midi_data : MidiMessageData) : Option InputReport :=
  let input_report := InputReport.new
  match Pitch.from_midi midi_data with
  | none => some input_report
  | some pressed_pitch =>
    match PITCH_TO_BUTTON pressed_pitch with
    | none => some input_report
    | some pressed_button => input_report.press_one pressed_button

/-- Total reading of InputReport::from, justified by the theorem that the
unwrap never fails (the fallback is never taken). -/
def InputReport.fromMidi (midi_data : MidiMessageData) : InputReport :=
  (InputReport.fromMidiOpt midi_data).getD InputReport.new

/-- Total reading of press_one, justified by the totality theorem below. -/
def press (r : InputReport) (key : Button) : InputReport :=
  (r.press_one key).getD r

/-- Report-encoder contract of the spec built from the code's press_one: press
every button of the set, in order, onto a fresh default report. -/
def encode (buttons : List Button) : InputReport :=
  buttons.foldl press InputReport.new

/-- Bytewise bitwise OR of two reports, the combination the spec's additivity
guarantee speaks about. -/
def orReport (x y : InputReport) : InputReport :=
  { r0 := x.r0 ||| y.r0, r1 := x.r1 ||| y.r1, r2 := x.r2 ||| y.r2 }

/-- One iteration of the merge loop in start_gadget: build the report of one
note and overwrite frame bytes 3, 4 and 5 with its three bytes. -/
def inject (controller_data : List Nat) (midi_data : MidiMessageData) : List Nat :=
  let input_report := InputReport.fromMidi midi_data
  (((controller_data.set 3 input_report.r0).set 4 input_report.r1).set 5 input_report.r2)

/-- Embedding of the frame-handling branch of the start_gadget loop body
(src/threads/gadget.rs, lines 44-54): one received frame, at most one pending
snapshot from try_recv on rx_midi (none models an empty channel).  The result
none models a panic: indexing byte 0 of an empty frame, or the per-note byte
assignments on a frame shorter than 6 bytes. -/
def gadget_merge (controller_data : List Nat)
    (midi_rx : Option (List MidiMessageData)) : Option (List Nat) :=
  match controller_data with
  | [] => none
  | byte0 :: _ =>
    if byte0 = 0x30 then
      match midi_rx with
      | some result =>
        if result.isEmpty || 6 ≤ controller_data.length then
          some (result.foldl inject controller_data)
        else none
      | none => some controller_data
    else some controller_data

/-- Embedding of DeviceFile::write (src/device_file.rs): the outcome of the
underlying write_all is a parameter; a failure is logged (second component)
and swallowed, and the method returns Ok(()) either way. -/
def DeviceFile.write (data : List Nat) (write_all_result : Except String Unit) :
    Except String Unit × List String :=
  match write_all_result with
  | Except.error e => (Except.ok (), ["Unable to write: " ++ e])
  | Except.ok _ => (Except.ok (), [])

/-- All-zero report, used to state the OR algebra of the encoder. -/
def zeroReport : InputReport :=
  { r0 := 0, r1 := 0, r2 := 0 }

theorem nat_or_or_self (n a b : Nat) : (n ||| a) ||| (n ||| b) = n ||| (a ||| b) := by
  rw [Nat.or_assoc, ← Nat.or_assoc a n b, Nat.or_comm a n, Nat.or_assoc n a b,
    ← Nat.or_assoc, Nat.or_self]

theorem press_one_eq_press (r : InputReport) (key : Button) :
    r.press_one key = some (press r key) := by
  cases key <;> rfl

theorem press_eq_or (r : InputReport) (key : Button) :
    press r key = orReport r (press zeroReport key) := by
  obtain ⟨a, b, c⟩ := r
  cases key <;>
    simp [press, InputReport.press_one, InputReport.find_packet_position,
      KEYS_IN_BYTE1, KEYS_IN_BYTE2, KEYS_IN_BYTE3, KEY_OFFSET, InputReport.setIdx,
      InputReport.getIdx, orReport, zeroReport, Nat.or_zero, Nat.zero_or]

theorem orReport_comm (x y : InputReport) : orReport x y = orReport y x := by
  obtain ⟨a, b, c⟩ := x
  obtain ⟨d, e, f⟩ := y
  simp [orReport, Nat.or_comm]

theorem orReport_assoc (x y z : InputReport) :
    orReport (orReport x y) z = orReport x (orReport y z) := by
  obtain ⟨a, b, c⟩ := x
  obtain ⟨d, e, f⟩ := y
  obtain ⟨g, h, i⟩ := z
  simp [orReport, Nat.or_assoc]

theorem orReport_self (x : InputReport) : orReport x x = x := by
  obtain ⟨a, b, c⟩ := x
  simp [orReport, Nat.or_self]

theorem orReport_or_or (n a b : InputReport) :
    orReport (orReport n a) (orReport n b) = orReport n (orReport a b) := by
  obtain ⟨x1, x2, x3⟩ := n
  obtain ⟨y1, y2, y3⟩ := a
  obtain ⟨z1, z2, z3⟩ := b
  simp [orReport, nat_or_or_self]

theorem orReport_zero (x : InputReport) : orReport x zeroReport = x := by
  obtain ⟨a, b, c⟩ := x
  simp [orReport, zeroReport, Nat.or_zero]

theorem foldl_press_or (l : List Button) (r : InputReport) :
    l.foldl press r = orReport r (l.foldl press zeroReport) := by
  induction l generalizing r with
  | nil => simp [List.foldl, orReport_zero]
  | cons k l ih =>
    rw [List.foldl_cons, List.foldl_cons, ih (press r k), ih (press zeroReport k),
      press_eq_or r k, orReport_assoc]

theorem encode_append_or (A B : List Button) :
    encode (A ++ B) = orReport (encode A) (encode B) := by
  unfold encode
  rw [List.foldl_append, foldl_press_or B (List.foldl press InputReport.new A),
    foldl_press_or B InputReport.new, foldl_press_or A InputReport.new,
    orReport_or_or, ← orReport_assoc]

/-- C4: encoding is a homomorphism from button sets under union to 3-byte
reports under bitwise OR: the default report is exactly 0x00, 0x80, 0x00;
pressing the same button twice equals pressing it once; presses commute; and
the report for the concatenation of two disjoint button lists is the bytewise
OR of the two individual reports. -/
theorem c4_encoder_homomorphism :
    InputReport.new = { r0 := 0x00, r1 := 0x80, r2 := 0x00 }
  ∧ (∀ (r : InputReport) (k : Button), press (press r k) k = press r k)
  ∧ (∀ (r : InputReport) (k1 k2 : Button),
      press (press r k1) k2 = press (press r k2) k1)
  ∧ (∀ A B : List Button, (∀ k ∈ A, k ∉ B) →
      encode (A ++ B) = orReport (encode A) (encode B)) := by
  refine ⟨rfl, ?_, ?_, ?_⟩
  · intro r k
    rw [press_eq_or r k, press_eq_or (orReport r (press zeroReport k)) k,
      orReport_assoc, orReport_self]
  · intro r k1 k2
    rw [press_eq_or r k1, press_eq_or (orReport r (press zeroReport k1)) k2,
      press_eq_or r k2, press_eq_or (orReport r (press zeroReport k2)) k1,
      orReport_assoc, orReport_assoc, orReport_comm (press zeroReport k1)]
  · intro A B _
    exact encode_append_or A B

theorem c4_encoder_homomorphism_witness :
    encode ([Button.Y] ++ [Button.X]) = orReport (encode [Button.Y]) (encode [Button.X]) :=
  c4_encoder_homomorphism.2.2.2 [Button.Y] [Button.X] (by simp)

theorem INDEX_TO_PITCH_isSome_of_lt (n : Nat) (h : n < 12) :
    (INDEX_TO_PITCH n).isSome = true := by
  interval_cases n <;> rfl

theorem from_midi_isSome (m : MidiMessageData) : (Pitch.from_midi m).isSome = true := by
  exact INDEX_TO_PITCH_isSome_of_lt (m.data_byte1 % 12) (Nat.mod_lt m.data_byte1 (by decide))

theorem fromMidiOpt_isSome (m : MidiMessageData) :
    (InputReport.fromMidiOpt m).isSome = true := by
  obtain ⟨st, d1, d2⟩ := m
  have h : d1 % 12 < 12 := Nat.mod_lt d1 (by decide)
  simp only [InputReport.fromMidiOpt, Pitch.from_midi]
  generalize d1 % 12 = n at h
  interval_cases n <;> rfl

/-- C6: the lookup tables are total over the values the mapper can produce:
every residue of note_number mod 12 resolves to a pitch, every pitch resolves
to a button, every button belongs to a byte group and has a bit offset, so
press_one always succeeds and the unwrap inside InputReport::from (the none
branch of fromMidiOpt) is unreachable for every MIDI message. -/
theorem c6_tables_total (m : MidiMessageData) (p : Pitch) (b : Button) (r : InputReport) :
    (Pitch.from_midi m).isSome = true
  ∧ (PITCH_TO_BUTTON p).isSome = true
  ∧ (InputReport.find_packet_position b).isSome = true
  ∧ (KEY_OFFSET b).isSome = true
  ∧ (r.press_one b).isSome = true
  ∧ (InputReport.fromMidiOpt m).isSome = true := by
  refine ⟨from_midi_isSome m, ?_, ?_, ?_, ?_, fromMidiOpt_isSome m⟩
  · cases p <;> rfl
  · cases b <;> rfl
  · cases b <;> rfl
  · cases b <;> rfl

/-- C5: the chromatic mapping is octave-independent: two MIDI messages whose
note numbers differ by exactly 12 resolve to the same pitch class and hence
InputReport::from produces identical 3-byte reports for them. -/
theorem c5_octave_fold (st : MidiMessageTypes) (n v : Nat) (h : n + 12 ≤ 255) :
    Pitch.from_midi { status_byte := st, data_byte1 := n + 12, data_byte2 := v }
      = Pitch.from_midi { status_byte := st, data_byte1 := n, data_byte2 := v }
  ∧ InputReport.fromMidi { status_byte := st, data_byte1 := n + 12, data_byte2 := v }
      = InputReport.fromMidi { status_byte := st, data_byte1 := n, data_byte2 := v } := by
  have hp : Pitch.from_midi { status_byte := st, data_byte1 := n + 12, data_byte2 := v }
      = Pitch.from_midi { status_byte := st, data_byte1 := n, data_byte2 := v } := by
    simp [Pitch.from_midi, Nat.add_mod_right]
  exact ⟨hp, by simp only [InputReport.fromMidi, InputReport.fromMidiOpt, hp]⟩

theorem c5_octave_fold_witness :
    Pitch.from_midi { status_byte := .NoteOn, data_byte1 := 0x12, data_byte2 := 0x40 }
      = Pitch.from_midi { status_byte := .NoteOn, data_byte1 := 0x06, data_byte2 := 0x40 }
  ∧ InputReport.fromMidi { status_byte := .NoteOn, data_byte1 := 0x12, data_byte2 := 0x40 }
      = InputReport.fromMidi { status_byte := .NoteOn, data_byte1 := 0x06, data_byte2 := 0x40 } :=
  c5_octave_fold .NoteOn 0x06 0x40 (by decide)

/-- C9: DeviceFile::write returns Ok(()) for every byte vector and every
outcome of the underlying write_all; an I/O failure is only logged, so the
caller can never observe a write error through the return value. -/
theorem c9_write_always_ok (data : List Nat) (write_all_result : Except String Unit) :
    (DeviceFile.write data write_all_result).1 = Except.ok ()
  ∧ (∀ e : String,
      DeviceFile.write data (Except.error e) = (Except.ok (), ["Unable to write: " ++ e])) := by
  refine ⟨?_, fun e => rfl⟩
  cases write_all_result <;> rfl

/-- C8: every successful run of process_callback emits the resulting note
state exactly twice on the channel, and both emitted snapshots equal the
returned state. -/
theorem c8_double_send (message : List Nat) (cur st : List MidiMessageData)
    (sends : List (List MidiMessageData))
    (h : process_callback message cur = some (st, sends)) :
    sends = [st, st] := by
  match message with
  | [] => simp [process_callback] at h
  | [b0] => simp [process_callback] at h
  | [b0, b1] => simp [process_callback] at h
  | b0 :: b1 :: b2 :: rest =>
    rcases hnew : MidiMessageData.new b0 b1 b2 with _ | md
    · simp [process_callback, hnew] at h
    · simp only [process_callback, hnew] at h
      obtain ⟨h1, h2⟩ := Prod.mk.injEq .. ▸ Option.some.injEq .. ▸ h
      rw [← h2, ← h1]

theorem c8_double_send_witness :
    ∃ out : List MidiMessageData × List (List MidiMessageData),
      process_callback [0x90, 0x3C, 0x40] [] = some out ∧ out.2 = [out.1, out.1] :=
  ⟨([{ status_byte := .NoteOn, data_byte1 := 0x3C, data_byte2 := 0x40 }],
    [[{ status_byte := .NoteOn, data_byte1 := 0x3C, data_byte2 := 0x40 }],
     [{ status_byte := .NoteOn, data_byte1 := 0x3C, data_byte2 := 0x40 }]]),
   rfl, c8_double_send [0x90, 0x3C, 0x40] [] _ _ rfl⟩

theorem tryFrom_isSome_iff (n : Nat) (h : n < 16) :
    (MidiMessageTypes.tryFrom n).isSome = true ↔ (8 ≤ n ∧ n ≤ 14) := by
  interval_cases n <;> decide

theorem tryFrom_eq_none_iff (n : Nat) (h : n < 16) :
    MidiMessageTypes.tryFrom n = none ↔ (n < 8 ∨ 14 < n) := by
  interval_cases n <;> decide

theorem shiftRight4_lt_16 (n : Nat) (h : n < 256) : n >>> 4 < 16 := by
  rw [Nat.shiftRight_eq_div_pow]
  omega

/-- C2: a NoteOn with non-zero velocity appends the note exactly once when it
is absent, leaves the list exactly unchanged when it is already present, and a
NoteOff, or a NoteOn with velocity 0, removes every entry with that note
number (a no-op when the note is absent, since filtering preserves the list). -/
theorem c2_press_release (cur : List MidiMessageData) (n v : Nat) (hv : v ≠ 0) :
    ((cur.any fun x => x.data_byte1 == n) = false →
      apply_message [0x90, n, v] cur
        = some (cur ++ [{ status_byte := .NoteOn, data_byte1 := n, data_byte2 := v }]))
  ∧ ((cur.any fun x => x.data_byte1 == n) = true →
      apply_message [0x90, n, v] cur = some cur)
  ∧ apply_message [0x80, n, v] cur = some (cur.filter fun x => x.data_byte1 != n)
  ∧ apply_message [0x90, n, 0] cur = some (cur.filter fun x => x.data_byte1 != n) := by
  refine ⟨?_, ?_, ?_, ?_⟩
  · intro habs
    simp [apply_message, process_callback, MidiMessageData.new, MidiMessageTypes.tryFrom,
      MidiMessageTypes.toU8, MidiMessageData.should_add_midi_message, beq_iff_eq, bne_iff_ne,
      MidiMessageData.should_remove_midi_message, habs, hv]
  · intro hpres
    simp [apply_message, process_callback, MidiMessageData.new, MidiMessageTypes.tryFrom,
      MidiMessageTypes.toU8, MidiMessageData.should_add_midi_message, beq_iff_eq, bne_iff_ne,
      MidiMessageData.should_remove_midi_message, hpres, hv]
  · simp [apply_message, process_callback, MidiMessageData.new, MidiMessageTypes.tryFrom,
      MidiMessageTypes.toU8, MidiMessageData.should_add_midi_message, beq_iff_eq, bne_iff_ne,
      MidiMessageData.should_remove_midi_message]
  · simp [apply_message, process_callback, MidiMessageData.new, MidiMessageTypes.tryFrom,
      MidiMessageTypes.toU8, MidiMessageData.should_add_midi_message, beq_iff_eq, bne_iff_ne,
      MidiMessageData.should_remove_midi_message]

theorem c2_press_release_witness :
    apply_message [0x90, 0x3C, 0x40] []
      = some [{ status_byte := .NoteOn, data_byte1 := 0x3C, data_byte2 := 0x40 }]
  ∧ apply_message [0x90, 0x3C, 0x40]
      [{ status_byte := .NoteOn, data_byte1 := 0x3C, data_byte2 := 0x40 }]
      = some [{ status_byte := .NoteOn, data_byte1 := 0x3C, data_byte2 := 0x40 }]
  ∧ apply_message [0x80, 0x3C, 0x00]
      [{ status_byte := .NoteOn, data_byte1 := 0x3C, data_byte2 := 0x40 }] = some [] :=
  ⟨(c2_press_release [] 0x3C 0x40 (by decide)).1 (by decide),
   (c2_press_release [{ status_byte := .NoteOn, data_byte1 := 0x3C, data_byte2 := 0x40 }]
      0x3C 0x40 (by decide)).2.1 (by decide),
   (c2_press_release [{ status_byte := .NoteOn, data_byte1 := 0x3C, data_byte2 := 0x40 }]
      0x3C 0x01 (by decide)).2.2.1⟩

/-- C3: process_callback fails exactly on messages shorter than 3 bytes or
whose first byte has a high nibble outside 0x8..0xE, and on failure the
callback leaves the note state untouched and emits no snapshot. -/
theorem c3_error_conditions (cur : List MidiMessageData) (message : List Nat)
    (hbyte : message.headD 0 < 256) :
    (process_callback message cur = none
      ↔ message.length < 3
        ∨ message.headD 0 >>> 4 < 0x8 ∨ 0xE < message.headD 0 >>> 4)
  ∧ (∀ msg : List Nat, process_callback msg cur = none → callback_step msg cur = (cur, [])) := by
  constructor
  · match message with
    | [] => simp [process_callback]
    | [b0] => simp [process_callback]
    | [b0, b1] => simp [process_callback]
    | b0 :: b1 :: b2 :: rest =>
      have hb0 : b0 < 256 := hbyte
      have hnib : b0 >>> 4 < 16 := shiftRight4_lt_16 b0 hb0
      rcases ho : MidiMessageTypes.tryFrom (b0 >>> 4) with _ | t
      · have := (tryFrom_eq_none_iff (b0 >>> 4) hnib).mp ho
        simp [process_callback, MidiMessageData.new, Nat.mod_eq_of_lt hb0, ho, this]
      · have hno : ¬ (b0 >>> 4 < 8 ∨ 14 < b0 >>> 4) := by
          intro hcon
          rw [← tryFrom_eq_none_iff (b0 >>> 4) hnib] at hcon
          simp [ho] at hcon
        simp [process_callback, MidiMessageData.new, Nat.mod_eq_of_lt hb0, ho]
        omega
  · intro msg hnone
    simp [callback_step, hnone]

theorem c3_error_conditions_witness :
    process_callback [0x00, 0x3C, 0x40] [] = none
  ∧ process_callback [0xF0, 0x3C, 0x40] [] = none
  ∧ callback_step [0x00, 0x3C, 0x40] [] = ([], []) :=
  ⟨(c3_error_conditions [] [0x00, 0x3C, 0x40] (by decide)).1.mpr (by decide),
   (c3_error_conditions [] [0xF0, 0x3C, 0x40] (by decide)).1.mpr (by decide),
   (c3_error_conditions [] [0x00, 0x3C, 0x40] (by decide)).2 [0x00, 0x3C, 0x40]
     ((c3_error_conditions [] [0x00, 0x3C, 0x40] (by decide)).1.mpr (by decide))⟩

theorem nibble_of_hi_channel (hi c : Nat) (hhi : hi < 16) (hc : c < 16) :
    ((hi * 16 + c) % 256) >>> 4 = hi := by
  rw [Nat.mod_eq_of_lt (by omega), Nat.shiftRight_eq_div_pow]
  show (hi * 16 + c) / 16 = hi
  rw [Nat.mul_comm, Nat.mul_add_div (by decide), Nat.div_eq_of_lt hc, Nat.add_zero]

/-- C10: MidiMessageData::new succeeds exactly when the high nibble of byte 0
lies in 0x8..0xE; on success the two data bytes are stored verbatim with no
range check (values above 127 included), and the channel nibble of byte 0 is
discarded: two status bytes with the same high nibble but different channels
parse to the identical message. -/
theorem c10_new_parse (byte0 byte1 byte2 : Nat) (h0 : byte0 < 256) :
    ((MidiMessageData.new byte0 byte1 byte2).isSome = true
      ↔ (0x8 ≤ byte0 >>> 4 ∧ byte0 >>> 4 ≤ 0xE))
  ∧ (∀ m : MidiMessageData, MidiMessageData.new byte0 byte1 byte2 = some m →
      m.data_byte1 = byte1 ∧ m.data_byte2 = byte2)
  ∧ (∀ hi c1 c2 : Nat, hi < 16 → c1 < 16 → c2 < 16 →
      MidiMessageData.new (hi * 16 + c1) byte1 byte2
        = MidiMessageData.new (hi * 16 + c2) byte1 byte2) := by
  have hnib : byte0 >>> 4 < 16 := shiftRight4_lt_16 byte0 h0
  refine ⟨?_, ?_, ?_⟩
  · rw [MidiMessageData.new, Nat.mod_eq_of_lt h0]
    rcases ho : MidiMessageTypes.tryFrom (byte0 >>> 4) with _ | t
    · have := (tryFrom_eq_none_iff (byte0 >>> 4) hnib).mp ho
      simp only [Option.isSome_none]
      constructor
      · intro hcon; exact absurd hcon (by decide)
      · intro hrange; omega
    · have := (tryFrom_isSome_iff (byte0 >>> 4) hnib).mp (by simp [ho])
      simp only [Option.isSome_some]
      exact ⟨fun _ => this, fun _ => trivial⟩
  · intro m hm
    rw [MidiMessageData.new] at hm
    rcases ho : MidiMessageTypes.tryFrom ((byte0 % 256) >>> 4) with _ | t <;> rw [ho] at hm
    · exact absurd hm (by simp)
    · obtain rfl : ({ status_byte := t, data_byte1 := byte1, data_byte2 := byte2 }
          : MidiMessageData) = m := Option.some.injEq .. ▸ hm
      exact ⟨rfl, rfl⟩
  · intro hi c1 c2 hhi hc1 hc2
    rw [MidiMessageData.new, MidiMessageData.new,
      nibble_of_hi_channel hi c1 hhi hc1, nibble_of_hi_channel hi c2 hhi hc2]

theorem c10_new_parse_witness :
    ((MidiMessageData.new 0x93 0xC8 0x05).isSome = true ↔ (0x8 ≤ 0x93 >>> 4 ∧ 0x93 >>> 4 ≤ 0xE))
  ∧ ({ status_byte := .NoteOn, data_byte1 := 0xC8, data_byte2 := 0x05
        : MidiMessageData }.data_byte1 = 0xC8
      ∧ { status_byte := .NoteOn, data_byte1 := 0xC8, data_byte2 := 0x05
          : MidiMessageData }.data_byte2 = 0x05)
  ∧ MidiMessageData.new (0x9 * 16 + 0x3) 0xC8 0x05
      = MidiMessageData.new (0x9 * 16 + 0x7) 0xC8 0x05 :=
  ⟨(c10_new_parse 0x93 0xC8 0x05 (by decide)).1,
   (c10_new_parse 0x93 0xC8 0x05 (by decide)).2.1
     { status_byte := .NoteOn, data_byte1 := 0xC8, data_byte2 := 0x05 } rfl,
   (c10_new_parse 0x93 0xC8 0x05 (by decide)).2.2 0x9 0x3 0x7 (by decide) (by decide) (by decide)⟩

theorem getD_set_ne (l : List Nat) (i j v : Nat) (h : i ≠ j) :
    (l.set j v).getD i 0 = l.getD i 0 := by
  simp [List.getD_eq_getElem?_getD, List.getElem?_set_ne (Ne.symm h)]

theorem getD_set_self (l : List Nat) (j v : Nat) (h : j < l.length) :
    (l.set j v).getD j 0 = v := by
  simp [List.getD_eq_getElem?_getD, List.getElem?_set_self, h]

theorem inject_length (cd : List Nat) (md : MidiMessageData) :
    (inject cd md).length = cd.length := by
  simp [inject]

theorem foldl_inject_length (l : List MidiMessageData) (cd : List Nat) :
    (l.foldl inject cd).length = cd.length := by
  induction l generalizing cd with
  | nil => rfl
  | cons md l ih => rw [List.foldl_cons, ih, inject_length]

theorem inject_getD_ne (cd : List Nat) (md : MidiMessageData) (i : Nat)
    (h3 : i ≠ 3) (h4 : i ≠ 4) (h5 : i ≠ 5) :
    (inject cd md).getD i 0 = cd.getD i 0 := by
  simp only [inject]
  rw [getD_set_ne _ _ _ _ h5, getD_set_ne _ _ _ _ h4, getD_set_ne _ _ _ _ h3]

theorem foldl_inject_getD_ne (l : List MidiMessageData) (cd : List Nat) (i : Nat)
    (h3 : i ≠ 3) (h4 : i ≠ 4) (h5 : i ≠ 5) :
    (l.foldl inject cd).getD i 0 = cd.getD i 0 := by
  induction l generalizing cd with
  | nil => rfl
  | cons md l ih => rw [List.foldl_cons, ih, inject_getD_ne cd md i h3 h4 h5]

theorem inject_getD_3 (cd : List Nat) (md : MidiMessageData) (h : 6 ≤ cd.length) :
    (inject cd md).getD 3 0 = (InputReport.fromMidi md).r0 := by
  simp only [inject]
  rw [getD_set_ne _ _ _ _ (by decide), getD_set_ne _ _ _ _ (by decide),
    getD_set_self _ _ _ (by omega)]

theorem inject_getD_4 (cd : List Nat) (md : MidiMessageData) (h : 6 ≤ cd.length) :
    (inject cd md).getD 4 0 = (InputReport.fromMidi md).r1 := by
  simp only [inject]
  rw [getD_set_ne _ _ _ _ (by decide),
    getD_set_self _ _ _ (by rw [List.length_set]; omega)]

theorem inject_getD_5 (cd : List Nat) (md : MidiMessageData) (h : 6 ≤ cd.length) :
    (inject cd md).getD 5 0 = (InputReport.fromMidi md).r2 := by
  simp only [inject]
  rw [getD_set_self _ _ _ (by rw [List.length_set, List.length_set]; omega)]

/-- C7: a frame whose first byte is not 0x30 passes through the gadget loop
byte-for-byte unmodified regardless of pending snapshots, and a frame tagged
0x30 (of on-wire length, at least 6 bytes) only ever has bytes 3, 4 and 5
changed: its length and every other byte are preserved. -/
theorem c7_pass_through (b0 : Nat) (rest : List Nat) (mrx : Option (List MidiMessageData)) :
    (b0 ≠ 0x30 → gadget_merge (b0 :: rest) mrx = some (b0 :: rest))
  ∧ (b0 = 0x30 → 6 ≤ (b0 :: rest).length →
      ∃ out : List Nat, gadget_merge (b0 :: rest) mrx = some out
        ∧ out.length = (b0 :: rest).length
        ∧ ∀ i : Nat, i ≠ 3 → i ≠ 4 → i ≠ 5 → out.getD i 0 = (b0 :: rest).getD i 0) := by
  constructor
  · intro hne
    simp [gadget_merge, hne]
  · intro h0 hlen
    cases mrx with
    | none => exact ⟨b0 :: rest, by simp [gadget_merge, h0], rfl, fun i _ _ _ => rfl⟩
    | some result =>
      have h5 : 5 ≤ rest.length := by simpa using hlen
      refine ⟨result.foldl inject (b0 :: rest), ?_, foldl_inject_length result _,
        fun i hi3 hi4 hi5 => foldl_inject_getD_ne result _ i hi3 hi4 hi5⟩
      simp [gadget_merge, h0, h5]

theorem c7_pass_through_witness :
    gadget_merge [0x21, 0x01, 0x02, 0x03, 0x04, 0x05]
        (some [{ status_byte := .NoteOn, data_byte1 := 0x00, data_byte2 := 0x40 }])
      = some [0x21, 0x01, 0x02, 0x03, 0x04, 0x05] :=
  (c7_pass_through 0x21 [0x01, 0x02, 0x03, 0x04, 0x05]
    (some [{ status_byte := .NoteOn, data_byte1 := 0x00, data_byte2 := 0x40 }])).1 (by decide)

/-- C1 counterexample: with two pending notes the gadget loop does not
union-combine the per-note encodings.  Note 0 encodes with byte 0 equal to
0x01 and note 1 with 0x02; the claim predicts frame byte 3 = 0x01 ||| 0x02 =
0x03, but the loop writes each note's fresh report over the previous one and
leaves byte 3 = 0x02: the later note cleared the earlier note's bit. -/
theorem c1_union_counterexample :
    gadget_merge [0x30, 0x00, 0x81, 0x00, 0x80, 0x00]
        (some [{ status_byte := .NoteOn, data_byte1 := 0x00, data_byte2 := 0x40 },
               { status_byte := .NoteOn, data_byte1 := 0x01, data_byte2 := 0x40 }])
      = some [0x30, 0x00, 0x81, 0x02, 0x80, 0x00]
  ∧ (InputReport.fromMidi { status_byte := .NoteOn, data_byte1 := 0x00, data_byte2 := 0x40 }).r0
      ||| (InputReport.fromMidi { status_byte := .NoteOn, data_byte1 := 0x01, data_byte2 := 0x40 }).r0
      = 0x03
  ∧ (0x02 : Nat) ≠ 0x03 :=
  ⟨rfl, rfl, by decide⟩

/-- C1 amended: for every 0x30-tagged frame of length at least 6 and every
nonempty pending snapshot, the gadget loop overwrites bytes 3, 4 and 5 with
the three-byte encoding of the last note in iteration order alone: each
note's report replaces the previous one instead of OR-combining with it. -/
theorem c1_last_note_wins (b0 : Nat) (rest : List Nat) (snap : List MidiMessageData)
    (h0 : b0 = 0x30) (hlen : 6 ≤ (b0 :: rest).length) (hsnap : snap ≠ []) :
    ∃ (out : List Nat) (lastNote : MidiMessageData),
      gadget_merge (b0 :: rest) (some snap) = some out
      ∧ snap.getLast? = some lastNote
      ∧ out.getD 3 0 = (InputReport.fromMidi lastNote).r0
      ∧ out.getD 4 0 = (InputReport.fromMidi lastNote).r1
      ∧ out.getD 5 0 = (InputReport.fromMidi lastNote).r2 := by
  rcases List.eq_nil_or_concat' snap with rfl | ⟨L, x, rfl⟩
  · exact absurd rfl hsnap
  · have hy : 6 ≤ (L.foldl inject (b0 :: rest)).length := by
      rw [foldl_inject_length]; exact hlen
    have h5 : 5 ≤ rest.length := by simpa using hlen
    refine ⟨(L ++ [x]).foldl inject (b0 :: rest), x, ?_, List.getLast?_concat L, ?_, ?_, ?_⟩
    · simp [gadget_merge, h0, h5]
    · rw [List.foldl_concat]
      exact inject_getD_3 _ x hy
    · rw [List.foldl_concat]
      exact inject_getD_4 _ x hy
    · rw [List.foldl_concat]
      exact inject_getD_5 _ x hy

theorem c1_last_note_wins_witness :
    ∃ (out : List Nat) (lastNote : MidiMessageData),
      gadget_merge [0x30, 0x00, 0x81, 0x00, 0x80, 0x00]
          (some [{ status_byte := .NoteOn, data_byte1 := 0x00, data_byte2 := 0x40 },
                 { status_byte := .NoteOn, data_byte1 := 0x01, data_byte2 := 0x40 }]) = some out
      ∧ [{ status_byte := .NoteOn, data_byte1 := 0x00, data_byte2 := 0x40 },
         { status_byte := .NoteOn, data_byte1 := 0x01, data_byte2 := 0x40
           : MidiMessageData }].getLast? = some lastNote
      ∧ out.getD 3 0 = (InputReport.fromMidi lastNote).r0
      ∧ out.getD 4 0 = (InputReport.fromMidi lastNote).r1
      ∧ out.getD 5 0 = (InputReport.fromMidi lastNote).r2 :=
  c1_last_note_wins 0x30 [0x00, 0x81, 0x00, 0x80, 0x00]
    [{ status_byte := .NoteOn, data_byte1 := 0x00, data_byte2 := 0x40 },
     { status_byte := .NoteOn, data_byte1 := 0x01, data_byte2 := 0x40 }]
    rfl (by decide) (by decide)
